import Mathlib

/-!
Verification of the reseed-tools repository: a shallow embedding of the
SU3 signed-container codec, the reseed engine, the request pipeline, the
token store and the blacklist, with theorems settling the specified
properties against this embedding. Bytes are modelled as natural numbers
below 256; Go fixed-width writes are modelled with explicit reduction
modulo 256, 65536 or 2 to the 64.
-/

namespace Su3

/-- Big-endian encoding of a natural number into w bytes, as performed by
the binary.Write calls with BigEndian byte order. The value is implicitly
reduced modulo 256 to the w, matching the fixed-width machine integers. -/
def beBytes : Nat → Nat → List Nat
  | 0, _ => []
  | w + 1, n => beBytes w (n / 256) ++ [n % 256]

/-- Big-endian decoding of a byte list into a natural number, as performed
by the binary.Read calls with BigEndian byte order. -/
def decodeBE (l : List Nat) : Nat :=
  l.foldl (fun a b => a * 256 + b) 0

theorem beBytes_length (w n : Nat) : (beBytes w n).length = w := by
  induction w generalizing n with
  | zero => rfl
  | succ w ih => simp [beBytes, ih]

theorem decodeBE_append (l₁ l₂ : List Nat) :
    decodeBE (l₁ ++ l₂) = l₂.foldl (fun a b => a * 256 + b) (decodeBE l₁) := by
  simp [decodeBE, List.foldl_append]

theorem decodeBE_beBytes (w n : Nat) (h : n < 256 ^ w) :
    decodeBE (beBytes w n) = n := by
  induction w generalizing n with
  | zero =>
    simp [beBytes, decodeBE]
    omega
  | succ w ih =>
    have hlt : n / 256 < 256 ^ w := by
      rw [Nat.div_lt_iff_lt_mul (by norm_num)]
      calc n < 256 ^ (w + 1) := h
        _ = 256 ^ w * 256 := by ring
    rw [beBytes, decodeBE_append, ih (n / 256) hlt]
    simp [decodeBE]
    omega

/-- The SU3 File structure from the su3 package: format version, signature
type, file type, content type, version bytes, signer identity, payload and
signature. The SignedBytes field of the Go struct is omitted: no function
of the codec reads or writes it. -/
structure File where
  format : Nat
  signatureType : Nat
  fileType : Nat
  contentType : Nat
  version : List Nat
  signerID : List Nat
  content : List Nat
  signature : List Nat
deriving DecidableEq, Repr

def SigTypeDSA : Nat := 0
def SigTypeECDSAWithSHA256 : Nat := 1
def SigTypeECDSAWithSHA384 : Nat := 2
def SigTypeECDSAWithSHA512 : Nat := 3
def SigTypeRSAWithSHA256 : Nat := 4
def SigTypeRSAWithSHA384 : Nat := 5
def SigTypeRSAWithSHA512 : Nat := 6

def minVersionLength : Nat := 16

/-- The magic bytes, the ASCII encoding of the string I2Psu3. -/
def magicBytes : List Nat := [73, 50, 80, 115, 117, 51]

/-- The signature length emitted into the header, following the switch in
File.BodyBytes: 40 for DSA, 256 for the SHA256 pair, 384 for the SHA384
pair, and for the SHA512 pair the current signature length as a uint16
when the signature is nonempty, otherwise 256; the initial value 512 is
kept for any unrecognized signature type. -/
def signatureLengthOf (s : File) : Nat :=
  if s.signatureType = SigTypeDSA then 40
  else if s.signatureType = SigTypeECDSAWithSHA256 ∨ s.signatureType = SigTypeRSAWithSHA256 then 256
  else if s.signatureType = SigTypeECDSAWithSHA384 ∨ s.signatureType = SigTypeRSAWithSHA384 then 384
  else if s.signatureType = SigTypeECDSAWithSHA512 ∨ s.signatureType = SigTypeRSAWithSHA512 then
    (if 0 < s.signature.length then s.signature.length % 65536 else 256)
  else 512

/-- The zero padding applied to the version field by File.BodyBytes: a
version shorter than minVersionLength bytes is copied into a fresh zeroed
buffer of minVersionLength bytes. -/
def padVersion (v : List Nat) : List Nat :=
  if v.length < minVersionLength then v ++ List.replicate (minVersionLength - v.length) 0
  else v

theorem padVersion_length (v : List Nat) :
    (padVersion v).length = max minVersionLength v.length := by
  unfold padVersion
  split <;> simp <;> omega

/-- File.BodyBytes: the header and the three variable trailers, without
the signature, in the exact field order of the source. -/
def File.BodyBytes (s : File) : List Nat :=
  magicBytes ++
  [0] ++
  beBytes 1 s.format ++
  beBytes 2 s.signatureType ++
  beBytes 2 (signatureLengthOf s) ++
  [0] ++
  beBytes 1 (padVersion s.version).length ++
  [0] ++
  beBytes 1 s.signerID.length ++
  beBytes 8 s.content.length ++
  [0] ++
  beBytes 1 s.fileType ++
  [0] ++
  beBytes 1 s.contentType ++
  List.replicate 12 0 ++
  padVersion s.version ++
  s.signerID ++
  s.content

/-- File.BodyBytes mutates its receiver: the version field is replaced in
place by its zero-padded form. This is the receiver as left behind by the
call. -/
def File.afterBodyBytes (s : File) : File :=
  { s with version := padVersion s.version }

/-- File.MarshalBinary: the body followed by the signature bytes. The Go
function always returns a nil error. -/
def File.MarshalBinary (s : File) : List Nat :=
  s.BodyBytes ++ s.signature

/-- The receiver as left behind by File.MarshalBinary, which calls
File.BodyBytes on it. -/
def File.afterMarshalBinary (s : File) : File :=
  s.afterBodyBytes

/-- A sequential read of n bytes, as performed by binary.Read over a
bytes.Reader. When fewer than n bytes remain the read fails, the target is
left untouched, and the remainder of the stream is consumed. -/
def readN (n : Nat) (data : List Nat) : Option (List Nat) × List Nat :=
  if n ≤ data.length then (some (data.take n), data.drop n) else (none, [])

/-- A fixed-width big-endian integer read; on failure the previous value
of the target variable is kept, matching an ignored binary.Read error. -/
def readUInt (w : Nat) (old : Nat) (data : List Nat) : Nat × List Nat :=
  match readN w data with
  | (some l, r) => (decodeBE l, r)
  | (none, r) => (old, r)

/-- A read into a freshly allocated zeroed buffer of n bytes; on failure
the buffer stays zeroed, matching make followed by an ignored read. -/
def readBuf (n : Nat) (data : List Nat) : List Nat × List Nat :=
  match readN n data with
  | (some l, r) => (l, r)
  | (none, r) => (List.replicate n 0, r)

/-- File.UnmarshalBinary: the sequential header reads in source order
(magic and the reserved skips are read and discarded, without
validation), then the four variable trailers at the declared lengths.
Fields of the receiver s that a failed read leaves unassigned keep their
previous values. -/
def File.UnmarshalBinary (s : File) (data : List Nat) : File :=
  let p1 := readBuf 6 data
  let p2 := readBuf 1 p1.2
  let p3 := readUInt 1 s.format p2.2
  let p4 := readUInt 2 s.signatureType p3.2
  let p5 := readUInt 2 0 p4.2
  let p6 := readBuf 1 p5.2
  let p7 := readUInt 1 0 p6.2
  let p8 := readBuf 1 p7.2
  let p9 := readUInt 1 0 p8.2
  let p10 := readUInt 8 0 p9.2
  let p11 := readBuf 1 p10.2
  let p12 := readUInt 1 s.fileType p11.2
  let p13 := readBuf 1 p12.2
  let p14 := readUInt 1 s.contentType p13.2
  let p15 := readBuf 12 p14.2
  let pv := readBuf p7.1 p15.2
  let ps := readBuf p9.1 pv.2
  let pc := readBuf p10.1 ps.2
  let pg := readBuf p5.1 pc.2
  { s with
    format := p3.1
    signatureType := p4.1
    fileType := p12.1
    contentType := p14.1
    version := pv.1
    signerID := ps.1
    content := pc.1
    signature := pg.1 }

/-- The hash algorithms selected by the signature-type switch in
File.Sign. -/
inductive HashType where
  | sha1
  | sha256
  | sha384
  | sha512
deriving DecidableEq, Repr

/-- The hash selected for a signature type by File.Sign: SHA1 for DSA,
SHA256 for the SHA256 pair, SHA384 for the SHA384 pair, SHA512 for the
SHA512 pair, and none (the unknown-signature-type error) otherwise. -/
def hashTypeFor (st : Nat) : Option HashType :=
  if st = SigTypeDSA then some HashType.sha1
  else if st = SigTypeECDSAWithSHA256 ∨ st = SigTypeRSAWithSHA256 then some HashType.sha256
  else if st = SigTypeECDSAWithSHA384 ∨ st = SigTypeRSAWithSHA384 then some HashType.sha384
  else if st = SigTypeECDSAWithSHA512 ∨ st = SigTypeRSAWithSHA512 then some HashType.sha512
  else none

/-- An RSA private key, abstracted to its size in bytes, the only
attribute File.Sign reads from it. -/
structure RSAPrivateKey where
  size : Nat
deriving DecidableEq, Repr

/-- File.Sign, parameterized by the hash functions and the PKCS1 v1.5
RSA signing primitive, which are external cryptographic collaborators.
A nil key fails at once. Otherwise the signature is first preset to a
zeroed buffer of the key size so that the emitted header length is
consistent, the hash is selected by the signature-type switch (failing
with the unknown-signature-type error outside the seven known types),
the body bytes are hashed and signed, and the signature field receives
the result. The returned File is the mutated receiver. -/
def File.Sign (hash : HashType → List Nat → List Nat)
    (rsaSign : RSAPrivateKey → List Nat → List Nat)
    (privkey : Option RSAPrivateKey) (s : File) : Except String File :=
  match privkey with
  | none => Except.error "private key cannot be nil"
  | some key =>
    let s1 : File := { s with signature := List.replicate key.size 0 }
    match hashTypeFor s1.signatureType with
    | none => Except.error "unknown signature type"
    | some ht =>
      let digest := hash ht s1.BodyBytes
      Except.ok { s1.afterBodyBytes with signature := rsaSign key digest }

/-- The zero value of the File struct, the receiver used when decoding
into a freshly allocated File. -/
def File.empty : File :=
  { format := 0, signatureType := 0, fileType := 0, contentType := 0,
    version := [], signerID := [], content := [], signature := [] }

theorem readBuf_exact {n : Nat} (l r : List Nat) (h : l.length = n) :
    readBuf n (l ++ r) = (l, r) := by
  subst h
  simp [readBuf, readN]

theorem readUInt_exact {w : Nat} (old : Nat) (l r : List Nat) (h : l.length = w) :
    readUInt w old (l ++ r) = (decodeBE l, r) := by
  subst h
  simp [readUInt, readN]

theorem readBuf_magic (r : List Nat) : readBuf 6 (magicBytes ++ r) = (magicBytes, r) :=
  readBuf_exact magicBytes r rfl

theorem readBuf_skip (r : List Nat) : readBuf 1 ([0] ++ r) = ([0], r) :=
  readBuf_exact [0] r rfl

theorem readBuf_reserved (r : List Nat) :
    readBuf 12 (List.replicate 12 0 ++ r) = (List.replicate 12 0, r) :=
  readBuf_exact (List.replicate 12 0) r rfl

theorem readBuf_self (l r : List Nat) : readBuf l.length (l ++ r) = (l, r) :=
  readBuf_exact l r rfl

theorem readBuf_last (l : List Nat) : readBuf l.length l = (l, []) := by
  have := readBuf_exact l [] rfl
  simpa using this

theorem readUInt_beBytes (w old n : Nat) (r : List Nat) :
    readUInt w old (beBytes w n ++ r) = (decodeBE (beBytes w n), r) :=
  readUInt_exact old (beBytes w n) r (beBytes_length w n)

theorem signatureLengthOf_lt (s : File) : signatureLengthOf s < 65536 := by
  unfold signatureLengthOf
  split
  · omega
  split
  · omega
  split
  · omega
  split
  · split
    · exact Nat.lt_of_lt_of_le (Nat.mod_lt _ (by norm_num)) (le_refl _)
    · omega
  · omega

theorem unmarshal_marshal (s : File)
    (hf : s.format < 256) (hst : s.signatureType < 65536)
    (hft : s.fileType < 256) (hct : s.contentType < 256)
    (hv : s.version.length ≤ 255) (hsid : s.signerID.length ≤ 255)
    (hc : s.content.length < 2 ^ 64)
    (hsig : s.signature.length = signatureLengthOf s) :
    File.UnmarshalBinary File.empty s.MarshalBinary =
      { s with version := padVersion s.version } := by
  have hpv : (padVersion s.version).length < 256 := by
    rw [padVersion_length]
    unfold minVersionLength
    omega
  have hc8 : s.content.length < 256 ^ 8 := lt_of_lt_of_eq hc (by norm_num)
  simp only [File.UnmarshalBinary, File.MarshalBinary, File.BodyBytes, List.append_assoc,
    readBuf_magic, readBuf_skip, readBuf_reserved, readUInt_beBytes, readBuf_self,
    decodeBE_beBytes 1 s.format (by omega),
    decodeBE_beBytes 2 s.signatureType hst,
    decodeBE_beBytes 2 (signatureLengthOf s) (signatureLengthOf_lt s),
    decodeBE_beBytes 1 (padVersion s.version).length hpv,
    decodeBE_beBytes 1 s.signerID.length (by omega),
    decodeBE_beBytes 8 s.content.length hc8,
    decodeBE_beBytes 1 s.fileType (by omega),
    decodeBE_beBytes 1 s.contentType (by omega)]
  rw [← hsig, readBuf_last]

theorem marshal_versionLen_byte (s : File) (hv : s.version.length ≤ 255) :
    (s.MarshalBinary.drop 13).take 1 = [max 16 s.version.length] := by
  have hsplit : s.MarshalBinary =
      (magicBytes ++ [0] ++ beBytes 1 s.format ++ beBytes 2 s.signatureType ++
        beBytes 2 (signatureLengthOf s) ++ [0]) ++
      (beBytes 1 (padVersion s.version).length ++
        ([0] ++ beBytes 1 s.signerID.length ++ beBytes 8 s.content.length ++ [0] ++
          beBytes 1 s.fileType ++ [0] ++ beBytes 1 s.contentType ++
          List.replicate 12 0 ++ padVersion s.version ++ s.signerID ++ s.content ++
          s.signature)) := by
    simp [File.MarshalBinary, File.BodyBytes, List.append_assoc]
  have hlen : (magicBytes ++ [0] ++ beBytes 1 s.format ++ beBytes 2 s.signatureType ++
      beBytes 2 (signatureLengthOf s) ++ [0]).length = 13 := by
    simp [magicBytes, beBytes_length]
  have hpv : (padVersion s.version).length < 256 := by
    rw [padVersion_length]
    unfold minVersionLength
    omega
  rw [hsplit, List.drop_left' hlen]
  show ((beBytes 0 ((padVersion s.version).length / 256) ++
      [(padVersion s.version).length % 256]) ++ _).take 1 = _
  rw [Nat.mod_eq_of_lt hpv]
  simp [beBytes, padVersion_length, minVersionLength]

/-- A sample valid SU3 value used to instantiate hypotheses of the
round-trip and frame theorems on concrete input: a DSA-type file with a
3-byte version, so the encoder derives a 40-byte signature length. -/
def sampleFile : File :=
  { format := 0, signatureType := 0, fileType := 0, contentType := 3,
    version := [49, 50, 51], signerID := [64], content := [9, 8, 7],
    signature := List.replicate 40 1 }

theorem hashTypeFor_eq_none_iff (st : Nat) : hashTypeFor st = none ↔ 7 ≤ st := by
  unfold hashTypeFor SigTypeDSA SigTypeECDSAWithSHA256 SigTypeRSAWithSHA256
    SigTypeECDSAWithSHA384 SigTypeRSAWithSHA384 SigTypeECDSAWithSHA512 SigTypeRSAWithSHA512
  split_ifs <;> simp <;> omega

/-- The sigLen derivation as the specification words it: 40 for DSA, the
hash size for ECDSA, and for every RSA type the actual size of the
signing key in bytes, reflected by the current signature length,
defaulting to 256 when no signature is present yet. Modelled from the
spec wording, for comparison with signatureLengthOf, the derivation the
source actually computes. -/
def sigLenSpec (s : File) : Nat :=
  if s.signatureType = SigTypeDSA then 40
  else if s.signatureType = SigTypeECDSAWithSHA256 then 256
  else if s.signatureType = SigTypeECDSAWithSHA384 then 384
  else if s.signatureType = SigTypeECDSAWithSHA512 then 512
  else if s.signatureType = SigTypeRSAWithSHA256 ∨ s.signatureType = SigTypeRSAWithSHA384 ∨
      s.signatureType = SigTypeRSAWithSHA512 then
    (if 0 < s.signature.length then s.signature.length else 256)
  else 0

theorem bodyBytes_sigLen_bytes (s : File) :
    (s.BodyBytes.drop 10).take 2 = beBytes 2 (signatureLengthOf s) := by
  have hsplit : s.BodyBytes =
      (magicBytes ++ [0] ++ beBytes 1 s.format ++ beBytes 2 s.signatureType) ++
      (beBytes 2 (signatureLengthOf s) ++
        ([0] ++ beBytes 1 (padVersion s.version).length ++ [0] ++
          beBytes 1 s.signerID.length ++ beBytes 8 s.content.length ++ [0] ++
          beBytes 1 s.fileType ++ [0] ++ beBytes 1 s.contentType ++
          List.replicate 12 0 ++ padVersion s.version ++ s.signerID ++ s.content)) := by
    simp [File.BodyBytes, List.append_assoc]
  have hlen : (magicBytes ++ [0] ++ beBytes 1 s.format ++ beBytes 2 s.signatureType).length = 10 := by
    simp [magicBytes, beBytes_length]
  rw [hsplit, List.drop_left' hlen, List.take_left' (beBytes_length 2 _)]

/-- An RSA with SHA384 file whose signature was preset by Sign to the
512-byte size of a 4096-bit key. -/
def rsa384File : File :=
  { sampleFile with signatureType := SigTypeRSAWithSHA384, signature := List.replicate 512 0 }

end Su3

/-- C3: for every valid SU3 value V (version and signer id each at most
255 bytes, machine-width numeric fields, signature of the length the
encoder derives for the signature type of V), decoding the encoding of V
yields V again except that the version field is zero-padded to a minimum
of 16 bytes, and the versionLen byte recorded at offset 13 of the encoded
header equals max 16 (length of the version of V). -/
theorem C3_su3_roundtrip_modulo_padding (s : Su3.File)
    (hf : s.format < 256) (hst : s.signatureType < 65536)
    (hft : s.fileType < 256) (hct : s.contentType < 256)
    (hv : s.version.length ≤ 255) (hsid : s.signerID.length ≤ 255)
    (hc : s.content.length < 2 ^ 64)
    (hsig : s.signature.length = Su3.signatureLengthOf s) :
    Su3.File.UnmarshalBinary Su3.File.empty s.MarshalBinary =
      { s with version := Su3.padVersion s.version } ∧
    (s.MarshalBinary.drop 13).take 1 = [max 16 s.version.length] :=
  ⟨Su3.unmarshal_marshal s hf hst hft hct hv hsid hc hsig,
   Su3.marshal_versionLen_byte s hv⟩

/-- Witness for C3: the round trip evaluated on the sample file. -/
theorem C3_su3_roundtrip_witness :
    Su3.File.UnmarshalBinary Su3.File.empty Su3.sampleFile.MarshalBinary =
      { Su3.sampleFile with version := Su3.padVersion Su3.sampleFile.version } ∧
    (Su3.sampleFile.MarshalBinary.drop 13).take 1 =
      [max 16 Su3.sampleFile.version.length] :=
  C3_su3_roundtrip_modulo_padding Su3.sampleFile (by decide) (by decide) (by decide)
    (by decide) (by decide) (by decide) (by decide) (by decide)

/-- C2 counterexample: a file whose signature type is DSA, not one of the
three RSA types, on which Sign nevertheless succeeds instead of failing
with the unknown-signature-type error. -/
theorem C2_sign_dsa_succeeds :
    Su3.sampleFile.signatureType ≠ Su3.SigTypeRSAWithSHA256 ∧
    Su3.sampleFile.signatureType ≠ Su3.SigTypeRSAWithSHA384 ∧
    Su3.sampleFile.signatureType ≠ Su3.SigTypeRSAWithSHA512 ∧
    (Su3.File.Sign (fun _ _ => [1, 2]) (fun k _ => List.replicate k.size 2)
      (some ⟨256⟩) Su3.sampleFile).isOk = true := by
  refine ⟨by decide, by decide, by decide, ?_⟩
  decide

/-- C2 amended: Sign fails with the nil-key error when no key is given;
with a key, it fails with the unknown-signature-type error exactly when
the signature type is outside the seven known types (DSA, the three ECDSA
types and the three RSA types all select a hash and proceed); and for
each RSA signature type it succeeds, zero-padding the version and
replacing the signature with the PKCS1 v1.5 result over the body bytes,
computed with the signature preset to the key size and hashed with
SHA256, SHA384 and SHA512 respectively. -/
theorem C2_sign_behavior (hash : Su3.HashType → List Nat → List Nat)
    (rsaSign : Su3.RSAPrivateKey → List Nat → List Nat)
    (key : Su3.RSAPrivateKey) (s : Su3.File) :
    Su3.File.Sign hash rsaSign none s = Except.error "private key cannot be nil" ∧
    (Su3.File.Sign hash rsaSign (some key) s = Except.error "unknown signature type" ↔
      7 ≤ s.signatureType) ∧
    (s.signatureType = Su3.SigTypeRSAWithSHA256 →
      Su3.File.Sign hash rsaSign (some key) s = Except.ok
        { s with version := Su3.padVersion s.version,
                 signature := rsaSign key (hash Su3.HashType.sha256
                   (Su3.File.BodyBytes { s with signature := List.replicate key.size 0 })) }) ∧
    (s.signatureType = Su3.SigTypeRSAWithSHA384 →
      Su3.File.Sign hash rsaSign (some key) s = Except.ok
        { s with version := Su3.padVersion s.version,
                 signature := rsaSign key (hash Su3.HashType.sha384
                   (Su3.File.BodyBytes { s with signature := List.replicate key.size 0 })) }) ∧
    (s.signatureType = Su3.SigTypeRSAWithSHA512 →
      Su3.File.Sign hash rsaSign (some key) s = Except.ok
        { s with version := Su3.padVersion s.version,
                 signature := rsaSign key (hash Su3.HashType.sha512
                   (Su3.File.BodyBytes { s with signature := List.replicate key.size 0 })) }) := by
  refine ⟨rfl, ?_, ?_, ?_, ?_⟩
  · constructor
    · intro h
      rw [← Su3.hashTypeFor_eq_none_iff]
      by_contra hne
      rcases Option.ne_none_iff_exists'.mp hne with ⟨ht, hht⟩
      simp [Su3.File.Sign, hht] at h
    · intro h
      have hnone : Su3.hashTypeFor s.signatureType = none :=
        (Su3.hashTypeFor_eq_none_iff _).mpr h
      simp [Su3.File.Sign, hnone]
  · intro h
    simp [Su3.File.Sign, Su3.hashTypeFor, h, Su3.SigTypeRSAWithSHA256, Su3.SigTypeDSA,
      Su3.SigTypeECDSAWithSHA256, Su3.SigTypeECDSAWithSHA384, Su3.SigTypeRSAWithSHA384,
      Su3.SigTypeECDSAWithSHA512, Su3.SigTypeRSAWithSHA512, Su3.File.afterBodyBytes]
  · intro h
    simp [Su3.File.Sign, Su3.hashTypeFor, h, Su3.SigTypeRSAWithSHA256, Su3.SigTypeDSA,
      Su3.SigTypeECDSAWithSHA256, Su3.SigTypeECDSAWithSHA384, Su3.SigTypeRSAWithSHA384,
      Su3.SigTypeECDSAWithSHA512, Su3.SigTypeRSAWithSHA512, Su3.File.afterBodyBytes]
  · intro h
    simp [Su3.File.Sign, Su3.hashTypeFor, h, Su3.SigTypeRSAWithSHA256, Su3.SigTypeDSA,
      Su3.SigTypeECDSAWithSHA256, Su3.SigTypeECDSAWithSHA384, Su3.SigTypeRSAWithSHA384,
      Su3.SigTypeECDSAWithSHA512, Su3.SigTypeRSAWithSHA512, Su3.File.afterBodyBytes]

set_option maxRecDepth 4000 in
/-- C4 counterexample: an RSA with SHA384 file whose signature was preset
to the 512 bytes of a 4096-bit key. The emitted sigLen bytes at offsets
10 and 11 of the header encode 384, the fixed value for the SHA384 pair,
while the actual key size reflected by the signature length is 512. -/
theorem C4_rsa384_sigLen_fixed :
    Su3.signatureLengthOf Su3.rsa384File = 384 ∧
    Su3.sigLenSpec Su3.rsa384File = 512 ∧
    (Su3.rsa384File.BodyBytes.drop 10).take 2 = [1, 128] ∧
    Su3.decodeBE [1, 128] = 384 ∧ (384 : Nat) ≠ 512 := by
  refine ⟨by decide, by decide, ?_, by decide, by decide⟩
  decide

/-- C4 amended: the sigLen emitted at offsets 10 and 11 of the header is
a total function of the file: 40 for DSA; 256 for both ECDSA with SHA256
and RSA with SHA256; 384 for both ECDSA with SHA384 and RSA with SHA384;
for ECDSA with SHA512 and RSA with SHA512 the current signature length
as a uint16 when the signature is nonempty, else 256; and 512 for any
unrecognized signature type. Only the SHA512 pair ever reflects the
actual key size. -/
theorem C4_sigLen_total_function (s : Su3.File) :
    (s.BodyBytes.drop 10).take 2 = Su3.beBytes 2 (Su3.signatureLengthOf s) ∧
    Su3.signatureLengthOf s =
      (if s.signatureType = 0 then 40
       else if s.signatureType = 1 ∨ s.signatureType = 4 then 256
       else if s.signatureType = 2 ∨ s.signatureType = 5 then 384
       else if s.signatureType = 3 ∨ s.signatureType = 6 then
         (if s.signature.length = 0 then 256 else s.signature.length % 65536)
       else 512) := by
  constructor
  · exact Su3.bodyBytes_sigLen_bytes s
  · unfold Su3.signatureLengthOf Su3.SigTypeDSA Su3.SigTypeECDSAWithSHA256
      Su3.SigTypeRSAWithSHA256 Su3.SigTypeECDSAWithSHA384 Su3.SigTypeRSAWithSHA384
      Su3.SigTypeECDSAWithSHA512 Su3.SigTypeRSAWithSHA512
    split_ifs <;> omega

/-- C10: encoding is not read-only. For a file whose version is shorter
than 16 bytes, the receiver left behind by BodyBytes carries the version
replaced by its zero-padded 16-byte form, a genuinely different value,
while every other field is unchanged; MarshalBinary leaves the receiver
in the same state; and a successful Sign leaves behind the padded
version, all fields other than version and signature unchanged. -/
theorem C10_bodyBytes_mutates_version (s : Su3.File)
    (hash : Su3.HashType → List Nat → List Nat)
    (rsaSign : Su3.RSAPrivateKey → List Nat → List Nat)
    (key : Su3.RSAPrivateKey) (t : Su3.File)
    (hlen : s.version.length < 16)
    (hsign : Su3.File.Sign hash rsaSign (some key) s = Except.ok t) :
    s.afterBodyBytes.version = s.version ++ List.replicate (16 - s.version.length) 0 ∧
    s.afterBodyBytes.version.length = 16 ∧
    s.afterBodyBytes.version ≠ s.version ∧
    s.afterBodyBytes.format = s.format ∧
    s.afterBodyBytes.signatureType = s.signatureType ∧
    s.afterBodyBytes.fileType = s.fileType ∧
    s.afterBodyBytes.contentType = s.contentType ∧
    s.afterBodyBytes.signerID = s.signerID ∧
    s.afterBodyBytes.content = s.content ∧
    s.afterBodyBytes.signature = s.signature ∧
    s.afterMarshalBinary = s.afterBodyBytes ∧
    t.version = s.version ++ List.replicate (16 - s.version.length) 0 ∧
    t.format = s.format ∧ t.signatureType = s.signatureType ∧
    t.fileType = s.fileType ∧ t.contentType = s.contentType ∧
    t.signerID = s.signerID ∧ t.content = s.content := by
  have hpad : Su3.padVersion s.version =
      s.version ++ List.replicate (16 - s.version.length) 0 := by
    unfold Su3.padVersion Su3.minVersionLength
    simp [hlen]
  have hne : Su3.padVersion s.version ≠ s.version := by
    intro h
    have := Su3.padVersion_length s.version
    rw [h] at this
    unfold Su3.minVersionLength at this
    omega
  have ht : t.version = s.version ++ List.replicate (16 - s.version.length) 0 ∧
      t.format = s.format ∧ t.signatureType = s.signatureType ∧
      t.fileType = s.fileType ∧ t.contentType = s.contentType ∧
      t.signerID = s.signerID ∧ t.content = s.content := by
    simp only [Su3.File.Sign] at hsign
    split at hsign
    · simp at hsign
    · simp only [Except.ok.injEq] at hsign
      rw [← hsign]
      simp [Su3.File.afterBodyBytes, hpad]
  have hl16 : s.afterBodyBytes.version.length = 16 := by
    show (Su3.padVersion s.version).length = 16
    rw [Su3.padVersion_length]
    unfold Su3.minVersionLength
    omega
  exact ⟨by simpa [Su3.File.afterBodyBytes] using hpad, hl16,
    by simpa [Su3.File.afterBodyBytes] using hne, rfl, rfl, rfl, rfl, rfl, rfl, rfl, rfl,
    ht.1, ht.2.1, ht.2.2.1, ht.2.2.2.1, ht.2.2.2.2.1, ht.2.2.2.2.2.1, ht.2.2.2.2.2.2⟩

/-- Witness for C2: the RSA with SHA256 branch applied at a concrete file
and key, with concrete hash and signing functions. -/
theorem C2_sign_behavior_witness :
    Su3.File.Sign (fun _ _ => [1]) (fun _ _ => [2]) (some ⟨4⟩)
      { Su3.sampleFile with signatureType := 4 } =
    Except.ok { Su3.sampleFile with
                signatureType := 4,
                version := Su3.padVersion Su3.sampleFile.version,
                signature := [2] } := by
  have h := (C2_sign_behavior (fun _ _ => [1]) (fun _ _ => [2]) ⟨4⟩
    { Su3.sampleFile with signatureType := 4 }).2.2.1 (by decide)
  simpa using h

/-- Witness for C10: the frame theorem applied at the sample file with
concrete hash and signing functions, an 8-byte key and the concrete
signed result. -/
theorem C10_bodyBytes_mutates_version_witness :
    Su3.sampleFile.version.length < 16 ∧
    (Su3.sampleFile.afterBodyBytes.version =
      Su3.sampleFile.version ++ List.replicate (16 - Su3.sampleFile.version.length) 0 ∧
    Su3.sampleFile.afterBodyBytes.version.length = 16 ∧
    Su3.sampleFile.afterBodyBytes.version ≠ Su3.sampleFile.version ∧
    Su3.sampleFile.afterBodyBytes.format = Su3.sampleFile.format ∧
    Su3.sampleFile.afterBodyBytes.signatureType = Su3.sampleFile.signatureType ∧
    Su3.sampleFile.afterBodyBytes.fileType = Su3.sampleFile.fileType ∧
    Su3.sampleFile.afterBodyBytes.contentType = Su3.sampleFile.contentType ∧
    Su3.sampleFile.afterBodyBytes.signerID = Su3.sampleFile.signerID ∧
    Su3.sampleFile.afterBodyBytes.content = Su3.sampleFile.content ∧
    Su3.sampleFile.afterBodyBytes.signature = Su3.sampleFile.signature ∧
    Su3.sampleFile.afterMarshalBinary = Su3.sampleFile.afterBodyBytes ∧
    ({ Su3.sampleFile with
        version := [49, 50, 51] ++ List.replicate 13 0,
        signature := [5] } : Su3.File).version =
      Su3.sampleFile.version ++ List.replicate (16 - Su3.sampleFile.version.length) 0 ∧
    ({ Su3.sampleFile with
        version := [49, 50, 51] ++ List.replicate 13 0,
        signature := [5] } : Su3.File).format = Su3.sampleFile.format ∧
    ({ Su3.sampleFile with
        version := [49, 50, 51] ++ List.replicate 13 0,
        signature := [5] } : Su3.File).signatureType = Su3.sampleFile.signatureType ∧
    ({ Su3.sampleFile with
        version := [49, 50, 51] ++ List.replicate 13 0,
        signature := [5] } : Su3.File).fileType = Su3.sampleFile.fileType ∧
    ({ Su3.sampleFile with
        version := [49, 50, 51] ++ List.replicate 13 0,
        signature := [5] } : Su3.File).contentType = Su3.sampleFile.contentType ∧
    ({ Su3.sampleFile with
        version := [49, 50, 51] ++ List.replicate 13 0,
        signature := [5] } : Su3.File).signerID = Su3.sampleFile.signerID ∧
    ({ Su3.sampleFile with
        version := [49, 50, 51] ++ List.replicate 13 0,
        signature := [5] } : Su3.File).content = Su3.sampleFile.content) :=
  ⟨by decide,
   C10_bodyBytes_mutates_version Su3.sampleFile (fun _ _ => [3]) (fun _ _ => [5]) ⟨8⟩
     { Su3.sampleFile with
       version := [49, 50, 51] ++ List.replicate 13 0,
       signature := [5] }
     (by decide) (by rfl)⟩

namespace Reseed

/-- A router-info candidate as read by the NetDb reader: filename,
modification time and raw bytes (the parsed structure is opaque here). -/
structure RouterInfo where
  name : String
  modTime : Nat
  data : List Nat
deriving DecidableEq, Repr

/-- PeerSu3Bytes over a loaded cache snapshot: an empty snapshot fails
with the error whose message is the string 404; otherwise the bundle at
the peer hash modulo the cache length is returned. The peer hash, a
CRC32 of a SHA256 of the peer string in the source and hence an
arbitrary non-negative integer, is abstracted as a function parameter. -/
def PeerSu3Bytes (hash : String → Nat) (su3s : List (List Nat)) (peer : String) :
    Except String (List Nat) :=
  if su3s.length = 0 then Except.error "404"
  else Except.ok (su3s.getD (hash peer % su3s.length) [])

structure HTTPResponse where
  status : Nat
  body : List Nat
deriving DecidableEq, Repr

/-- The reseed handler: every PeerSu3Bytes error is mapped to status 500
(the body is the error page, elided); success writes the bundle bytes
with status 200. The peer string is the RemoteAddr with the port
stripped when present; the handler is modelled over the derived peer
string. -/
def reseedHandler (hash : String → Nat) (su3s : List (List Nat)) (peer : String) :
    HTTPResponse :=
  match PeerSu3Bytes hash su3s peer with
  | Except.error _ => { status := 500, body := [] }
  | Except.ok b => { status := 200, body := b }

/-- The candidate trimming step of rebuild: the first quarter of the
router infos returned by the reader is dropped. -/
def candidates (ris : List RouterInfo) : List RouterInfo :=
  ris.drop (ris.length / 4)

/-- The rebuild step of ReseederImpl, over its inputs: the result of the
RouterInfos call, the per-bundle count NumRi, the bundle pipeline
(seedsProducer, the three su3Builder workers and the fanIn collector,
whose random sampling and interleaving are abstracted as a function from
the trimmed candidates to the marshaled bundles) and the current cache.
Returns the rebuild result paired with the cache afterwards: the reader
error propagates, the rebuild fails when fewer candidates remain after
trimming than NumRi, and only a successful rebuild stores a new cache.
MarshalBinary never fails, so the marshal error branch of the collection
loop is unreachable. -/
def rebuild (numRi : Nat) (risResult : Except String (List RouterInfo))
    (build : List RouterInfo → List (List Nat)) (cache : List (List Nat)) :
    Except String (List (List Nat)) × List (List Nat) :=
  match risResult with
  | Except.error e => (Except.error ("unable to get routerInfos: " ++ e), cache)
  | Except.ok ris =>
    if (candidates ris).length < numRi then
      (Except.error "not enough routerInfos", cache)
    else
      (Except.ok (build (candidates ris)), build (candidates ris))

/-- The server configuration assembled by NewServer and the reseed
command wiring. NewServer installs a bundle throttle of 4 requests per
hour and a web throttle of 30 requests per hour, both hard-coded
literals; the command afterwards stores the configured ratelimit and
ratelimitweb values in the RequestRateLimit and WebRateLimit fields,
which no middleware reads. -/
structure ServerConfig where
  bundlePerHour : Nat
  webPerHour : Nat
  requestRateLimit : Nat
  webRateLimit : Nat
deriving DecidableEq, Repr

/-- NewServer: the throttle middleware is built with PerHour 4 for the
bundle endpoint and PerHour 30 for the browse surface. -/
def NewServer : ServerConfig :=
  { bundlePerHour := 4, webPerHour := 30, requestRateLimit := 0, webRateLimit := 0 }

/-- Default of the ratelimit integer flag in NewReseedCommand. -/
def ratelimitDefault : Nat := 4

/-- Default of the ratelimitweb integer flag in NewReseedCommand. -/
def ratelimitwebDefault : Nat := 40

/-- The reseed command builds the server and then assigns the configured
rate limits onto its fields; the throttles installed by NewServer keep
their hard-coded rates. -/
def configureServer (ratelimit ratelimitweb : Nat) : ServerConfig :=
  { NewServer with requestRateLimit := ratelimit, webRateLimit := ratelimitweb }

/-- The token lifetime: 4 minutes, in seconds. -/
def expiredAfter : Nat := 240

/-- The purge pass of Acceptable: checkAcceptableUnsafe applied to every
key deletes exactly the entries older than the token lifetime. The store
is a list of token-time pairs with distinct keys, in map iteration order
(Go leaves that order unspecified; the model uses the list order). -/
def purgeExpired (now : Nat) (st : List (String × Nat)) : List (String × Nat) :=
  st.filter (fun e => now - e.2 ≤ expiredAfter)

/-- The size-based eviction loop of Acceptable: deletes entries in
iteration order until fewer than 50 remain. -/
def evictOver (st : List (String × Nat)) : List (String × Nat) :=
  st.drop (st.length - 49)

/-- Map assignment into the store. -/
def storeSet (k : String) (v : Nat) (st : List (String × Nat)) : List (String × Nat) :=
  if st.any (fun e => e.1 == k) then st.map (fun e => if e.1 == k then (k, v) else e)
  else st ++ [(k, v)]

/-- Acceptable: when the store already holds more than 50 entries, purge
the expired entries and then evict in iteration order until below 50;
finally record the freshly generated token (the random 16-letter string,
taken as input) at the current time. -/
def Acceptable (tok : String) (now : Nat) (st : List (String × Nat)) :
    List (String × Nat) :=
  let st1 := if 50 < st.length then evictOver (purgeExpired now st) else st
  storeSet tok now st1

/-- Token lookup in the store. -/
def lookupTok (st : List (String × Nat)) (k : String) : Option Nat :=
  (st.find? (fun e => e.1 == k)).map (fun e => e.2)

/-- Map deletion from the store. -/
def eraseTok (st : List (String × Nat)) (k : String) : List (String × Nat) :=
  st.filter (fun e => !(e.1 == k))

/-- CheckAcceptable: a present token is deleted in either case and
accepted exactly when its age is at most the token lifetime; an absent
token is rejected with the store unchanged. -/
def CheckAcceptable (now : Nat) (st : List (String × Nat)) (tok : String) :
    Bool × List (String × Nat) :=
  match lookupTok st tok with
  | some t =>
    if expiredAfter < now - t then (false, eraseTok st tok)
    else (true, eraseTok st tok)
  | none => (false, st)

/-- The exact user agent the reseed client contract requires. -/
def I2pUserAgent : String := "Wget/1.11.4"

/-- The handlers the browse surface can run on one request. -/
inductive BrowseAction where
  | bundle
  | homepage
  | next
deriving DecidableEq, Repr

/-- browsingMiddleware: the reseed handler runs when the onetime token
is consumed successfully and, with no early return on that path,
dispatch continues to the user-agent check, where a non-client agent
receives the homepage (early return) and a client agent falls through
to the next handler. The first component is the sequence of handlers
run, the second the token store afterwards. -/
def browsingMiddleware (now : Nat) (st : List (String × Nat)) (onetime ua : String) :
    List BrowseAction × List (String × Nat) :=
  let c := CheckAcceptable now st onetime
  ((if c.1 then [BrowseAction.bundle] else []) ++
   (if ua == I2pUserAgent then [BrowseAction.next] else [BrowseAction.homepage]), c.2)

/-- BlockIP: records the given string in the blocked set
unconditionally. -/
def BlockIP (bl : List String) (ip : String) : List String :=
  bl ++ [ip]

/-- strings.Split with the newline separator, over the character list of
the content: one more segment than there are newline characters, in
order; a trailing newline therefore yields a final empty segment. -/
def splitNewline (l : List Char) : List (List Char) :=
  match l with
  | [] => [[]]
  | x :: xs =>
    if x = '\n' then [] :: splitNewline xs
    else
      match splitNewline xs with
      | [] => [[x]]
      | y :: ys => (x :: y) :: ys

/-- LoadFile over the file content: splits the content on the newline
character and calls BlockIP on every resulting line. -/
def LoadFile (bl : List String) (content : String) : List String :=
  ((splitNewline content.toList).map (fun cs => String.mk cs)).foldl BlockIP bl

/-- isBlocked: membership in the blocked set. -/
def isBlocked (bl : List String) (ip : String) : Bool :=
  bl.contains ip

end Reseed

/-- C1 counterexample: with an empty cache snapshot, PeerSu3Bytes fails
with the error whose message reads 404, yet the bundle handler maps it to
status 500, not 404. -/
theorem C1_empty_cache_gives_500 :
    Reseed.PeerSu3Bytes (fun _ => 0) [] "10.0.0.1" = Except.error "404" ∧
    (Reseed.reseedHandler (fun _ => 0) [] "10.0.0.1").status = 500 ∧
    (Reseed.reseedHandler (fun _ => 0) [] "10.0.0.1").status ≠ 404 :=
  ⟨rfl, rfl, by decide⟩

/-- C1 amended: the bundle handler maps every PeerSu3Bytes error,
including the empty-cache not-available case, to HTTP status 500; on a
nonempty snapshot it returns status 200 with the bundle selected by the
peer hash modulo the cache length. -/
theorem C1_reseedHandler_statuses (hash : String → Nat) (su3s : List (List Nat))
    (peer : String) :
    (su3s = [] →
      Reseed.PeerSu3Bytes hash su3s peer = Except.error "404" ∧
      (Reseed.reseedHandler hash su3s peer).status = 500) ∧
    (su3s ≠ [] →
      Reseed.PeerSu3Bytes hash su3s peer =
        Except.ok (su3s.getD (hash peer % su3s.length) []) ∧
      Reseed.reseedHandler hash su3s peer =
        { status := 200, body := su3s.getD (hash peer % su3s.length) [] }) := by
  constructor
  · intro h
    subst h
    exact ⟨rfl, rfl⟩
  · intro h
    have hl : su3s.length ≠ 0 := by simpa using h
    constructor
    · simp [Reseed.PeerSu3Bytes, hl]
    · simp [Reseed.reseedHandler, Reseed.PeerSu3Bytes, hl]

/-- Witness for C1: the handler on a two-bundle snapshot with a hash
that selects the second bundle. -/
theorem C1_reseedHandler_statuses_witness :
    ([[7], [8]] : List (List Nat)) ≠ [] ∧
    Reseed.reseedHandler (fun _ => 3) [[7], [8]] "10.0.0.1" =
      { status := 200, body := [8] } :=
  ⟨by decide,
   ((C1_reseedHandler_statuses (fun _ => 3) [[7], [8]] "10.0.0.1").2 (by decide)).2⟩

/-- C5 counterexample: with the default flag values, the configured web
rate limit stored on the server is 40 but the throttle NewServer wires
into the browse pipeline admits 30 per hour. -/
theorem C5_web_limit_mismatch :
    Reseed.ratelimitwebDefault = 40 ∧
    (Reseed.configureServer Reseed.ratelimitDefault Reseed.ratelimitwebDefault).webRateLimit = 40 ∧
    (Reseed.configureServer Reseed.ratelimitDefault Reseed.ratelimitwebDefault).webPerHour = 30 ∧
    (30 : Nat) ≠ 40 := by
  decide

/-- C5 amended: the request pipeline enforces hard-coded per-IP hourly
limits of 4 on the bundle endpoint and 30 on the browse surface,
independent of the configured ratelimit and ratelimitweb values
(defaults 4 and 40), which are stored on the server but never read by
the throttle middleware. -/
theorem C5_hardcoded_limits (ratelimit ratelimitweb : Nat) :
    Reseed.configureServer ratelimit ratelimitweb =
      { bundlePerHour := 4, webPerHour := 30,
        requestRateLimit := ratelimit, webRateLimit := ratelimitweb } ∧
    Reseed.ratelimitDefault = 4 ∧ Reseed.ratelimitwebDefault = 40 :=
  ⟨rfl, rfl, rfl⟩

/-- C8: a rebuild fails with the insufficient-candidates error exactly
when fewer candidates remain after trimming than NumRi; on any failed
rebuild, including the reader error and this pre-check, the cache keeps
its previous snapshot; a successful rebuild stores the built bundles. -/
theorem C8_rebuild_insufficient (numRi : Nat)
    (risResult : Except String (List Reseed.RouterInfo))
    (build : List Reseed.RouterInfo → List (List Nat)) (cache : List (List Nat)) :
    (∀ ris, risResult = Except.ok ris →
      ((Reseed.rebuild numRi risResult build cache).1 =
          Except.error "not enough routerInfos" ↔
        (Reseed.candidates ris).length < numRi)) ∧
    (∀ e, (Reseed.rebuild numRi risResult build cache).1 = Except.error e →
      (Reseed.rebuild numRi risResult build cache).2 = cache) ∧
    (∀ ris, risResult = Except.ok ris → numRi ≤ (Reseed.candidates ris).length →
      (Reseed.rebuild numRi risResult build cache).2 =
        build (Reseed.candidates ris)) := by
  rcases risResult with e | ris
  · refine ⟨fun ris h => by simp at h, fun e2 _ => rfl, fun ris h => by simp at h⟩
  · refine ⟨fun ris2 h => ?_, fun e2 he => ?_, fun ris2 h hge => ?_⟩
    · have hinj : ris = ris2 := by injection h
      subst hinj
      by_cases hc : (Reseed.candidates ris).length < numRi
      · simp [Reseed.rebuild, hc]
      · simp [Reseed.rebuild, hc]
    · by_cases hc : (Reseed.candidates ris).length < numRi
      · simp [Reseed.rebuild, hc]
      · simp [Reseed.rebuild, hc] at he
    · have hinj : ris = ris2 := by injection h
      subst hinj
      simp [Reseed.rebuild, Nat.not_lt.mpr hge]

/-- The candidate list used to witness the rebuild pre-check: four
router infos, of which trimming keeps three. -/
def c8Ris : List Reseed.RouterInfo :=
  [⟨"a", 0, []⟩, ⟨"b", 0, []⟩, ⟨"c", 0, []⟩, ⟨"d", 0, []⟩]

/-- Witness for C8: a rebuild needing 5 candidates out of the 3 kept by
trimming fails and preserves the cache. -/
theorem C8_rebuild_insufficient_witness :
    (Reseed.rebuild 5 (Except.ok c8Ris) (fun _ => [[1]]) [[9]]).1 =
      Except.error "not enough routerInfos" ∧
    (Reseed.rebuild 5 (Except.ok c8Ris) (fun _ => [[1]]) [[9]]).2 = [[9]] := by
  have h := C8_rebuild_insufficient 5 (Except.ok c8Ris) (fun _ => [[1]]) [[9]]
  have h1 := (h.1 c8Ris rfl).mpr (by decide)
  exact ⟨h1, h.2.1 _ h1⟩

/-- C9: loading a blacklist file whose content is one address followed by
a newline blocks the address, as the claim says, but also blocks the
empty string produced by the blank final line, although the claim and
the LoadFile documentation say blank lines are ignored. -/
theorem C9_blank_line_blocked :
    (Reseed.splitNewline "1.2.3.4\n".toList).map (fun cs => String.mk cs) =
      ["1.2.3.4", ""] ∧
    Reseed.isBlocked (Reseed.LoadFile [] "1.2.3.4\n") "1.2.3.4" = true ∧
    Reseed.isBlocked (Reseed.LoadFile [] "1.2.3.4\n") "" = true ∧
    Reseed.isBlocked [] "" = false := by
  decide

theorem storeSet_length_le (k : String) (v : Nat) (st : List (String × Nat)) :
    (Reseed.storeSet k v st).length ≤ st.length + 1 := by
  unfold Reseed.storeSet
  split
  · simp
  · simp

theorem storeSet_has_key (k : String) (v : Nat) (st : List (String × Nat)) :
    (Reseed.storeSet k v st).any (fun e => e.1 == k) = true := by
  unfold Reseed.storeSet
  split
  · rename_i h
    rw [List.any_eq_true] at h ⊢
    rcases h with ⟨e, he, hk⟩
    refine ⟨(k, v), ?_, by simp⟩
    rw [List.mem_map]
    exact ⟨e, he, by simp [hk]⟩
  · rw [List.any_eq_true]
    exact ⟨(k, v), by simp, by simp⟩

theorem evictOver_length_le (st : List (String × Nat)) :
    (Reseed.evictOver st).length ≤ 49 := by
  unfold Reseed.evictOver
  rw [List.length_drop]
  omega

/-- C6 amended: an Issue call grows the store by at most one entry and
the store holds at most 51 entries after it; when the call finds the
store above the soft cap of 50 it purges the expired entries and evicts
further entries in map iteration order, not necessarily the oldest,
until below the cap, so in that case the result holds at most 50
entries; the new token is always recorded. -/
theorem C6_store_bounds (tok : String) (now : Nat) (st : List (String × Nat)) :
    (Reseed.Acceptable tok now st).length ≤ st.length + 1 ∧
    (Reseed.Acceptable tok now st).length ≤ 51 ∧
    (50 < st.length → (Reseed.Acceptable tok now st).length ≤ 50) ∧
    (Reseed.Acceptable tok now st).any (fun e => e.1 == tok) = true := by
  by_cases h : 50 < st.length
  · have hev := evictOver_length_le (Reseed.purgeExpired now st)
    have hset := storeSet_length_le tok now (Reseed.evictOver (Reseed.purgeExpired now st))
    have hmain : (Reseed.Acceptable tok now st).length ≤ 50 := by
      simp only [Reseed.Acceptable, if_pos h]
      omega
    have hkey : (Reseed.Acceptable tok now st).any (fun e => e.1 == tok) = true := by
      simp only [Reseed.Acceptable, if_pos h]
      exact storeSet_has_key tok now _
    exact ⟨by omega, by omega, fun _ => hmain, hkey⟩
  · have heq : Reseed.Acceptable tok now st = Reseed.storeSet tok now st := by
      simp only [Reseed.Acceptable, if_neg h]
    rw [heq]
    have hset := storeSet_length_le tok now st
    exact ⟨hset, by omega, fun hc => absurd hc h, storeSet_has_key tok now st⟩

/-- A store of exactly 50 fresh tokens, at which an Issue call performs
no purge and grows the store to 51. -/
def c6Store50 : List (String × Nat) :=
  (List.range 50).map (fun i => (toString i, 0))

/-- A store of 51 fresh tokens, above the soft cap. -/
def c6Store51 : List (String × Nat) :=
  (List.range 51).map (fun i => (toString i, 0))

set_option maxRecDepth 8000 in
/-- C6 counterexample: an Issue call that finds exactly 50 entries, the
soft cap itself, triggers no purge and leaves 51 entries in the store,
so the store does not hold at most 50 entries after every completed
operation. -/
theorem C6_issue_reaches_51 :
    c6Store50.length = 50 ∧
    (Reseed.Acceptable "fresh" 0 c6Store50).length = 51 := by
  decide

set_option maxRecDepth 8000 in
/-- Witness for C6: above the cap, with every entry expired, the Issue
call purges and ends at or below 50 entries. -/
theorem C6_store_bounds_witness :
    50 < c6Store51.length ∧
    (Reseed.Acceptable "fresh" 300 c6Store51).length ≤ 50 :=
  ⟨by decide, (C6_store_bounds "fresh" 300 c6Store51).2.2.1 (by decide)⟩

/-- C7 counterexample: a request with a valid onetime token from a
non-client user agent is handled as a bundle request and then, because
dispatch does not stop there, additionally receives the homepage: the
three outcomes are not mutually exclusive and the bundle branch is not
alone. -/
theorem C7_bundle_then_homepage :
    (Reseed.browsingMiddleware 0 [("t", 0)] "t" "Mozilla").1 =
      [Reseed.BrowseAction.bundle, Reseed.BrowseAction.homepage] ∧
    (Reseed.browsingMiddleware 0 [("t", 0)] "t" "Mozilla").1 ≠
      [Reseed.BrowseAction.bundle] := by
  decide

/-- C7 amended: the bundle handler runs exactly when the onetime token is
present and at most 4 minutes old; the homepage runs exactly when the
user agent differs from the client constant; deferral to the next
handler exactly when it equals the client constant. Homepage and next
exclude each other, but the bundle branch does not stop dispatch, so it
can be joined by either of the other two outcomes. -/
theorem C7_dispatch_characterization (now : Nat) (st : List (String × Nat))
    (onetime ua : String) :
    (Reseed.BrowseAction.bundle ∈ (Reseed.browsingMiddleware now st onetime ua).1 ↔
      (∃ t, Reseed.lookupTok st onetime = some t ∧ now - t ≤ Reseed.expiredAfter)) ∧
    (Reseed.BrowseAction.homepage ∈ (Reseed.browsingMiddleware now st onetime ua).1 ↔
      ua ≠ Reseed.I2pUserAgent) ∧
    (Reseed.BrowseAction.next ∈ (Reseed.browsingMiddleware now st onetime ua).1 ↔
      ua = Reseed.I2pUserAgent) ∧
    ¬ (Reseed.BrowseAction.homepage ∈ (Reseed.browsingMiddleware now st onetime ua).1 ∧
       Reseed.BrowseAction.next ∈ (Reseed.browsingMiddleware now st onetime ua).1) := by
  have hc : ((Reseed.CheckAcceptable now st onetime).1 = true) ↔
      (∃ t, Reseed.lookupTok st onetime = some t ∧ now - t ≤ Reseed.expiredAfter) := by
    unfold Reseed.CheckAcceptable
    rcases hl : Reseed.lookupTok st onetime with _ | t
    · simp
    · by_cases hexp : Reseed.expiredAfter < now - t
      · have hng : ¬ (now - t ≤ Reseed.expiredAfter) := by omega
        simp [hexp, hng]
        omega
      · have hle : now - t ≤ Reseed.expiredAfter := by omega
        simp [hexp, hle]
        omega
  have hacts : (Reseed.browsingMiddleware now st onetime ua).1 =
      (if (Reseed.CheckAcceptable now st onetime).1 then [Reseed.BrowseAction.bundle]
       else []) ++
      (if ua == Reseed.I2pUserAgent then [Reseed.BrowseAction.next]
       else [Reseed.BrowseAction.homepage]) := rfl
  rw [hacts]
  rw [← hc]
  cases hb : (Reseed.CheckAcceptable now st onetime).1 <;>
    cases hua2 : (ua == Reseed.I2pUserAgent) <;>
    simp_all [beq_iff_eq]
